import Mathlib

/-!
Verification of `codeaid.py`, a command-line coding assistant.

The program is a single Python file with a template registry
(`PromptManager`), a request composer and completion client
(`OpenAIClient`), a file reader (`read_source_file`), argument handling
(`parse_arguments`, `create_prompt_manager`, `print_usage_instructions`)
and a `main` entry point followed by `sys.exit(0)`.

The embedding below models the process environment as an optional value of
the `OPENAI_KEY` variable, the filesystem as a map from filename to a read
outcome, and the remote completion service as an oracle function from the
composed prompt to the response text.  `sys.exit(n)` is modelled as early
termination carrying the exit status `n`; an uncaught Python exception is
modelled as the distinguished outcome `raised`.
-/

namespace Codeaid

/-- The "summarize" template from `PromptManager._initialize_prompts`. -/
def summarizePrompt : String :=
  "Act as a programming assistant. After examining the provided \n               source code, identify the language in which it is written, then \n               give a concise, one-paragraph summary of its functionality. \n               Include any notable or interesting elements a programmer would \n               find useful or appreciate, but keep your explanation streamlined \n               and to the point.\n               "

/-- The "defects" template from `PromptManager._initialize_prompts`. -/
def defectsPrompt : String :=
  "Act as an expert software debugger. After examining the \n                provided source code, briefly summarize any possible defects \n                you find, focusing strictly on potential errors without including \n                unrelated discussion.\n                "

/-- The "security" template from `PromptManager._initialize_prompts`. -/
def securityPrompt : String :=
  "Act as a software security expert. Examine the provided source \n                code, identify any potential vulnerabilities, and offer concise \n                recommendations to improve its security.\n                "

/-- The "optimize" template from `PromptManager._initialize_prompts`. -/
def optimizePrompt : String :=
  "Act as a software optimization expert. Evaluate the provided \n                source code and recommend performance improvements. Include any \n                best practices, plus language-specific techniques that can \n                significantly enhance efficiency.\n                "

/-- The "refactor" template from `PromptManager._initialize_prompts`. -/
def refactorPrompt : String :=
  "Act as a software refactoring expert. Analyze the provided \n                source code and propose improvements to maintainability, \n                readability, modularization, naming, and decomposition. Offer \n                reorganizations, style enhancements, and language-specific \n                techniques (e.g., creating classes) that clarify and structure \n                the code more effectively.\n                "

/-- The "document" template from `PromptManager._initialize_prompts`. -/
def documentPrompt : String :=
  "Act as a software documentation expert. After examining the \n                provided source code, generate comprehensive documentation, \n                inline comments, or markdown—summarizing the entire file and \n                each module in a clear, concise manner.\n                "

/-- The "complexity" template from `PromptManager._initialize_prompts`. -/
def complexityPrompt : String :=
  "Act as an expert software engineer dedicated to reducing \n                complexity.  Review the provided source code, evaluate the \n                complexity of its functions and modules, and highlight any \n                excessively tangled or overly complex areas that warrant \n                refactoring. Focus on modularization, maintainability, and \n                readability enhancements.\n                "

/-- The "naming" template from `PromptManager._initialize_prompts`. -/
def namingPrompt : String :=
  "Act as an expert software engineer prioritizing readability. \n                Examine the source code’s variable and function naming, \n                highlighting any non-descriptive names and recommending more \n                descriptive alternatives. List only necessary changes, keeping \n                the response concise.\n                "

/-- The "translate" template from `PromptManager._initialize_prompts`;
it contains the placeholder token `XXX` for the target language. -/
def translatePrompt : String :=
  "Act as a software translation expert. Review the provided \n                source code and rewrite it in XXX language, preserving the \n                original functionality and logic.\n                "

/-- The "cleanup" template from `PromptManager._initialize_prompts`. -/
def cleanupPrompt : String :=
  "Your role is a software cleanup specialist.  Your goal is \n                to take the software provided in the context below and convert \n                it into PEP-8 style.  Maintain all functionality, just refine \n                into PEP-8.\n                "

/-- The "todo" template from `PromptManager._initialize_prompts`. -/
def todoPrompt : String :=
  "You are an agile story writing expert.  Your goal is to \n                find each TODO in the source code and write an agile story for \n                it.  Please keep the stories focused on the task at hand \n                (using the TODO text and surrounding code as a guide).\n                "

/-- The "ut" template from `PromptManager._initialize_prompts`. -/
def utPrompt : String :=
  "You are a test development expert.  Your goal is to analyze \n                the source code and develop unit-tests using the unittest module \n                to validate the code for quality improvement for future changes.\n                "

/-- The prompt dictionary built by `PromptManager._initialize_prompts`,
as an association list in the dictionary's insertion order (Python dicts
preserve insertion order). -/
def prompts : List (String × String) :=
  [("summarize", summarizePrompt),
   ("defects", defectsPrompt),
   ("security", securityPrompt),
   ("optimize", optimizePrompt),
   ("refactor", refactorPrompt),
   ("document", documentPrompt),
   ("complexity", complexityPrompt),
   ("naming", namingPrompt),
   ("translate", translatePrompt),
   ("cleanup", cleanupPrompt),
   ("todo", todoPrompt),
   ("ut", utPrompt)]

/-- `PromptManager.get_prompt_by_goal`: `self.prompts.get(goal)`, i.e.
dictionary lookup returning `none` when the key is absent. -/
def get_prompt_by_goal (goal : String) : Option String :=
  (prompts.find? (fun p => p.1 == goal)).map (fun p => p.2)

/-- The registered goal names, in dictionary insertion order
(`self.prompts.keys()`). -/
def goal_names : List String :=
  prompts.map (fun p => p.1)

/-- `PromptManager._goals_list` / `PromptManager.goals`:
`', '.join(self.prompts.keys())`. -/
def goals_list : String :=
  String.intercalate ", " goal_names

/-- Helper for `pyReplace`: one left-to-right pass replacing each
non-overlapping occurrence of `pat` by `repl`, with a fuel argument for
structural termination (fuel at least the length of the list suffices). -/
def replaceChars (pat repl : List Char) : Nat → List Char → List Char
  | 0, s => s
  | _ + 1, [] => []
  | fuel + 1, c :: rest =>
    if pat.isPrefixOf (c :: rest) then
      repl ++ replaceChars pat repl fuel (List.drop pat.length (c :: rest))
    else
      c :: replaceChars pat repl fuel rest

/-- Python `s.replace(pattern, replacement)` for a nonempty pattern:
every non-overlapping occurrence is replaced, scanning left to right.
(The only use in the source is `prompt.replace("XXX", target)`.) -/
def pyReplace (s pat repl : String) : String :=
  if pat.data.isEmpty then s
  else ⟨replaceChars pat.data repl.data s.data.length s.data⟩

/-- `OpenAIClient.compose_prompt_message`: looks the goal up in the prompt
table; on a miss it logs and returns `None`; for the translate goal with a
target present it substitutes the `XXX` placeholder; finally it returns the
template concatenated directly before the source text. -/
def compose_prompt_message (goal context : String) (target : Option String) : Option String :=
  match get_prompt_by_goal goal with
  | none => none
  | some prompt =>
    let prompt2 :=
      match target with
      | some t => if goal = "translate" then pyReplace prompt "XXX" t else prompt
      | none => prompt
    some (prompt2 ++ context)

/-- Outcome of `OpenAIClient._get_openai_key`: either the key value read
from the environment, or process termination via `sys.exit` with the given
status (after `logging.error`). -/
inductive KeyResult where
  | value (k : String)
  | exit (code : Nat)
deriving DecidableEq

/-- `OpenAIClient._get_openai_key`: reads `OPENAI_KEY` from the
environment; when it is unset, logs an error and calls `sys.exit(1)`. -/
def get_openai_key (env : Option String) : KeyResult :=
  match env with
  | none => KeyResult.exit 1
  | some k => KeyResult.value k

/-- The completion client; `openai_key` is the credential stored by the
constructor. -/
structure OpenAIClient where
  openai_key : String
deriving DecidableEq

/-- Outcome of `OpenAIClient.__init__`: a constructed client, or process
termination with the given exit status. -/
inductive InitResult where
  | ok (c : OpenAIClient)
  | exit (code : Nat)
deriving DecidableEq

/-- `OpenAIClient.__init__`: stores the key obtained by
`_get_openai_key` (which terminates the process when the variable
is unset). -/
def OpenAIClient.init (env : Option String) : InitResult :=
  match get_openai_key env with
  | KeyResult.value k => InitResult.ok ⟨k⟩
  | KeyResult.exit code => InitResult.exit code

/-- Outcome of opening a file path: the embedding of the filesystem maps
each filename to one of these. -/
inductive ReadResult where
  | found (contents : String)
  | notFound
  | otherError
deriving DecidableEq

/-- Outcome of `read_source_file`: a returned value (`some` contents or
`none`), or an exception propagating out of the function. -/
inductive ReadOutcome where
  | returned (v : Option String)
  | raised
deriving DecidableEq

/-- `read_source_file`: opens the file and returns its full contents; the
`except FileNotFoundError` handler logs and returns `None`; any other
failure while opening or reading is not caught and the exception
propagates. -/
def read_source_file (fs : String → ReadResult) (filename : String) : ReadOutcome :=
  match fs filename with
  | ReadResult.found s => ReadOutcome.returned (some s)
  | ReadResult.notFound => ReadOutcome.returned none
  | ReadResult.otherError => ReadOutcome.raised

/-- The three lines printed to standard output by
`print_usage_instructions`. -/
def usage_lines : List String :=
  ["Usage is:\n\n\tasst.py --goal <goal> --filename <filename> --target <language>",
   "\t\tWhere goal is: [" ++ goals_list ++ " ]",
   "\t\tand <filename> is the source file to analyze, <language> is the target language for translate.\n"]

/-- The parsed command-line arguments (`argparse` with three optional
flags, each defaulting to `None`). -/
structure Args where
  goal : Option String
  filename : Option String
  target : Option String
deriving DecidableEq

/-- Observable result of a terminated invocation: the lines printed to
standard output, the process exit status, and whether
`OpenAIClient.execute_prompt` (the remote completion call) was invoked. -/
structure RunResult where
  stdout : List String
  exitCode : Nat
  completionCalled : Bool
deriving DecidableEq

/-- Outcome of a whole invocation: normal termination with a
`RunResult`, or termination by an uncaught exception. -/
inductive RunOutcome where
  | exited (result : RunResult)
  | raised
deriving DecidableEq

/-- The whole invocation: `main()` followed by `sys.exit(0)`.
`create_prompt_manager` prints the usage text and exits with status 1
when the goal or filename flag is missing, or when the goal is
`translate` and no target is given.  Then `read_source_file` runs; a
`None` or empty result skips the rest (`if source:`).  Otherwise
`OpenAIClient()` is constructed (exiting with status 1 when `OPENAI_KEY`
is unset), the prompt is composed (an unrecognized goal gives `None`,
skipping the rest via `if prompt:`), `execute_prompt` sends the prompt to
the completion oracle, and the trimmed response is printed when nonempty
(`if response:`). -/
def runMain (args : Args) (env : Option String) (fs : String → ReadResult)
    (completion : String → String) : RunOutcome :=
  match args.goal, args.filename with
  | some goal, some filename =>
    if goal = "translate" ∧ args.target = none then
      RunOutcome.exited ⟨usage_lines, 1, false⟩
    else
      match read_source_file fs filename with
      | ReadOutcome.raised => RunOutcome.raised
      | ReadOutcome.returned none => RunOutcome.exited ⟨[], 0, false⟩
      | ReadOutcome.returned (some source) =>
        if source = "" then RunOutcome.exited ⟨[], 0, false⟩
        else
          match OpenAIClient.init env with
          | InitResult.exit code => RunOutcome.exited ⟨[], code, false⟩
          | InitResult.ok _ =>
            match compose_prompt_message goal source args.target with
            | none => RunOutcome.exited ⟨[], 0, false⟩
            | some prompt =>
              if prompt = "" then RunOutcome.exited ⟨[], 0, false⟩
              else
                let response := (completion prompt).trim
                if response = "" then RunOutcome.exited ⟨[], 0, true⟩
                else RunOutcome.exited ⟨[response], 0, true⟩
  | _, _ => RunOutcome.exited ⟨usage_lines, 1, false⟩

/-- The goal names are exactly the twelve listed in the source, in
insertion order. -/
theorem goal_names_eq_list :
    goal_names = ["summarize", "defects", "security", "optimize", "refactor",
      "document", "complexity", "naming", "translate", "cleanup", "todo", "ut"] := by
  rfl

/-- Every registered goal has a nonempty template. -/
theorem lookup_of_mem_goal_names (g : String) (h : g ∈ goal_names) :
    ∃ t, get_prompt_by_goal g = some t ∧ t ≠ "" := by
  rw [goal_names_eq_list] at h
  simp only [List.mem_cons, List.not_mem_nil, or_false] at h
  rcases h with rfl | rfl | rfl | rfl | rfl | rfl | rfl | rfl | rfl | rfl | rfl | rfl
  · exact ⟨summarizePrompt, rfl, by decide⟩
  · exact ⟨defectsPrompt, rfl, by decide⟩
  · exact ⟨securityPrompt, rfl, by decide⟩
  · exact ⟨optimizePrompt, rfl, by decide⟩
  · exact ⟨refactorPrompt, rfl, by decide⟩
  · exact ⟨documentPrompt, rfl, by decide⟩
  · exact ⟨complexityPrompt, rfl, by decide⟩
  · exact ⟨namingPrompt, rfl, by decide⟩
  · exact ⟨translatePrompt, rfl, by decide⟩
  · exact ⟨cleanupPrompt, rfl, by decide⟩
  · exact ⟨todoPrompt, rfl, by decide⟩
  · exact ⟨utPrompt, rfl, by decide⟩

/-- Lookup misses exactly outside the registered goal set. -/
theorem lookup_eq_none_of_not_mem (g : String) (h : g ∉ goal_names) :
    get_prompt_by_goal g = none := by
  cases hfind : prompts.find? (fun p => p.1 == g) with
  | none => simp [get_prompt_by_goal, hfind]
  | some p =>
    exfalso
    apply h
    have hmem : p ∈ prompts := List.mem_of_find?_eq_some hfind
    have hp := List.find?_some hfind
    simp only [beq_iff_eq] at hp
    rw [← hp]
    exact List.mem_map_of_mem (fun q => q.1) hmem

set_option maxRecDepth 10000 in
/-- C1 counterexample: with the unrecognized goal "bogus", a readable
nonempty source file and the credential present, the invocation prints
nothing and makes no completion call, but the process exits with status
0, not 1 (main returns after the failed lookup and the script then calls
`sys.exit(0)`). -/
theorem c1_unknown_goal_counterexample :
    runMain ⟨some "bogus", some "foo.py", none⟩ (some "key")
        (fun _ => ReadResult.found "print(1)") (fun _ => "response")
      = RunOutcome.exited ⟨[], 0, false⟩
    ∧ runMain ⟨some "bogus", some "foo.py", none⟩ (some "key")
        (fun _ => ReadResult.found "print(1)") (fun _ => "response")
      ≠ RunOutcome.exited ⟨[], 1, false⟩ :=
  ⟨by decide, by decide⟩

/-- C1 (amended): if the goal supplied on the command line is not in the
fixed goal set, while the source file is readable and nonempty and the
credential is present, the program prints nothing to standard output,
makes no completion call, and the process exits with status 0. -/
theorem c1_unknown_goal_silent_exit_zero (g f key content : String)
    (fs : String → ReadResult) (completion : String → String)
    (hg : g ∉ goal_names) (hf : fs f = ReadResult.found content) (hc : content ≠ "") :
    runMain ⟨some g, some f, none⟩ (some key) fs completion
      = RunOutcome.exited ⟨[], 0, false⟩ := by
  have hng : g ≠ "translate" := by
    intro h
    subst h
    exact hg (by decide)
  have hlook := lookup_eq_none_of_not_mem g hg
  simp [runMain, read_source_file, hf, hng, hc, OpenAIClient.init, get_openai_key,
    compose_prompt_message, hlook]

/-- C1 witness: the amended theorem applied at a concrete input. -/
theorem c1_unknown_goal_silent_exit_zero_witness :
    runMain ⟨some "nonsense", some "f.py", none⟩ (some "k")
        (fun _ => ReadResult.found "x = 1") (fun _ => "r")
      = RunOutcome.exited ⟨[], 0, false⟩ :=
  c1_unknown_goal_silent_exit_zero "nonsense" "f.py" "k" "x = 1" _ _
    (by decide) rfl (by decide)

set_option maxRecDepth 10000 in
/-- C2: composing the translate goal with target "Rust" substitutes the
placeholder in the template before concatenation: the result is the
substituted template — in which "Rust" stands where "XXX" stood — followed
byte-for-byte by the source text, so any occurrence of the placeholder
marker inside the source text is left unchanged. -/
theorem c2_compose_translate_rust (s : String) :
    compose_prompt_message "translate" s (some "Rust")
      = some (pyReplace translatePrompt "XXX" "Rust" ++ s)
    ∧ pyReplace translatePrompt "XXX" "Rust"
        = "Act as a software translation expert. Review the provided \n                source code and rewrite it in "
          ++ "Rust"
          ++ " language, preserving the \n                original functionality and logic.\n                "
    ∧ List.IsSuffix s.data (pyReplace translatePrompt "XXX" "Rust" ++ s).data := by
  refine ⟨rfl, by decide, ?_⟩
  exact ⟨(pyReplace translatePrompt "XXX" "Rust").data, by simp⟩

set_option maxRecDepth 10000 in
/-- C2 witness: the theorem applied at a source text that itself contains
the placeholder marker. -/
theorem c2_compose_translate_rust_witness :
    compose_prompt_message "translate" "the XXX marker" (some "Rust")
      = some (pyReplace translatePrompt "XXX" "Rust" ++ "the XXX marker")
    ∧ pyReplace translatePrompt "XXX" "Rust"
        = "Act as a software translation expert. Review the provided \n                source code and rewrite it in "
          ++ "Rust"
          ++ " language, preserving the \n                original functionality and logic.\n                "
    ∧ List.IsSuffix ("the XXX marker" : String).data
        (pyReplace translatePrompt "XXX" "Rust" ++ "the XXX marker").data :=
  c2_compose_translate_rust "the XXX marker"

/-- C3: the fixed goal set is exactly the twelve names listed in the
source; every one of them maps to a nonempty template, and any string
outside the set yields `none`, never a default template. -/
theorem c3_lookup_total_on_goal_set :
    goal_names = ["summarize", "defects", "security", "optimize", "refactor",
      "document", "complexity", "naming", "translate", "cleanup", "todo", "ut"]
    ∧ (∀ g ∈ goal_names, ∃ t, get_prompt_by_goal g = some t ∧ t ≠ "")
    ∧ (∀ g, g ∉ goal_names → get_prompt_by_goal g = none) :=
  ⟨goal_names_eq_list, lookup_of_mem_goal_names, lookup_eq_none_of_not_mem⟩

/-- C3 witness: the theorem applied at the registered goal "ut" and at
the unregistered string "bogus". -/
theorem c3_lookup_total_on_goal_set_witness :
    get_prompt_by_goal "ut" ≠ none ∧ get_prompt_by_goal "bogus" = none := by
  constructor
  · obtain ⟨t, ht, -⟩ := c3_lookup_total_on_goal_set.2.1 "ut" (by decide)
    simp [ht]
  · exact c3_lookup_total_on_goal_set.2.2 "bogus" (by decide)

/-- C4: for every recognized goal other than "translate" and every source
text, composing with no target returns exactly the goal's template
concatenated immediately with the source text, with nothing in
between. -/
theorem c4_compose_non_translate (goal s : String)
    (hmem : goal ∈ goal_names) (hng : goal ≠ "translate") :
    get_prompt_by_goal goal ≠ none
    ∧ compose_prompt_message goal s none
        = (get_prompt_by_goal goal).map (fun t => t ++ s) := by
  obtain ⟨t, ht, -⟩ := lookup_of_mem_goal_names goal hmem
  exact ⟨by simp [ht], by simp [compose_prompt_message, ht]⟩

/-- C4 witness: the theorem applied at the goal "defects" and source text
"x". -/
theorem c4_compose_non_translate_witness :
    get_prompt_by_goal "defects" ≠ none
    ∧ compose_prompt_message "defects" "x" none
        = (get_prompt_by_goal "defects").map (fun t => t ++ "x") :=
  c4_compose_non_translate "defects" "x" (by decide) (by decide)

/-- C5: constructing the completion client with the OPENAI_KEY variable
absent terminates the process immediately with status 1 (after logging);
with the variable present the constructor stores its value and does not
terminate. -/
theorem c5_missing_key_fatal :
    OpenAIClient.init none = InitResult.exit 1
    ∧ ∀ k, OpenAIClient.init (some k) = InitResult.ok ⟨k⟩ :=
  ⟨rfl, fun _ => rfl⟩

/-- C5 witness: the theorem applied at a concrete key value. -/
theorem c5_missing_key_fatal_witness :
    OpenAIClient.init none = InitResult.exit 1
    ∧ OpenAIClient.init (some "sk-test") = InitResult.ok ⟨"sk-test"⟩ :=
  ⟨c5_missing_key_fatal.1, c5_missing_key_fatal.2 "sk-test"⟩

set_option maxRecDepth 10000 in
/-- C6: an invocation with no flags at all exits with status 1 after
printing the usage lines, whose second line lists every registered goal
name, comma-separated. -/
theorem c6_no_flags_usage_exit (env : Option String) (fs : String → ReadResult)
    (completion : String → String) :
    runMain ⟨none, none, none⟩ env fs completion
      = RunOutcome.exited ⟨usage_lines, 1, false⟩
    ∧ usage_lines[1]? = some ("\t\tWhere goal is: [" ++ goals_list ++ " ]")
    ∧ goals_list = "summarize, defects, security, optimize, refactor, document, complexity, naming, translate, cleanup, todo, ut" :=
  ⟨rfl, rfl, by decide⟩

set_option maxRecDepth 10000 in
/-- C6 witness: the theorem applied at a concrete environment,
filesystem and completion oracle. -/
theorem c6_no_flags_usage_exit_witness :
    runMain ⟨none, none, none⟩ none (fun _ => ReadResult.notFound) (fun _ => "")
      = RunOutcome.exited ⟨usage_lines, 1, false⟩
    ∧ usage_lines[1]? = some ("\t\tWhere goal is: [" ++ goals_list ++ " ]")
    ∧ goals_list = "summarize, defects, security, optimize, refactor, document, complexity, naming, translate, cleanup, todo, ut" :=
  c6_no_flags_usage_exit none (fun _ => ReadResult.notFound) (fun _ => "")

/-- C7: for a path naming a nonexistent file, the read returns `none`
(after logging) and does not raise an unhandled fault. -/
theorem c7_read_missing_returns_none (fs : String → ReadResult) (path : String)
    (h : fs path = ReadResult.notFound) :
    read_source_file fs path = ReadOutcome.returned none
    ∧ read_source_file fs path ≠ ReadOutcome.raised := by
  simp [read_source_file, h]

/-- C7 witness: the theorem applied at a filesystem on which the path is
missing. -/
theorem c7_read_missing_returns_none_witness :
    read_source_file (fun _ => ReadResult.notFound) "missing.py"
      = ReadOutcome.returned none
    ∧ read_source_file (fun _ => ReadResult.notFound) "missing.py"
      ≠ ReadOutcome.raised :=
  c7_read_missing_returns_none (fun _ => ReadResult.notFound) "missing.py" rfl

/-- C8: composing with any goal outside the fixed goal set returns `none`
— the composer is a total function in the embedding, so no exception is
raised. -/
theorem c8_compose_unknown_goal_none (g s : String) (target : Option String)
    (h : g ∉ goal_names) :
    compose_prompt_message g s target = none := by
  simp [compose_prompt_message, lookup_eq_none_of_not_mem g h]

/-- C8 witness: the theorem applied at the claim's own example input. -/
theorem c8_compose_unknown_goal_none_witness :
    compose_prompt_message "bogus-goal" "x" none = none :=
  c8_compose_unknown_goal_none "bogus-goal" "x" none (by decide)

/-- C9: whenever the source-file read returns absent (missing file), the
invocation terminates without the completion call ever being made — the
run ends either on the usage/exit-1 path or on the silent exit-0 path,
and in both the completion call never happened. -/
theorem c9_missing_file_no_completion (args : Args) (env : Option String)
    (fs : String → ReadResult) (completion : String → String) (f : String)
    (hf : args.filename = some f) (hnf : fs f = ReadResult.notFound) :
    runMain args env fs completion = RunOutcome.exited ⟨usage_lines, 1, false⟩
    ∨ runMain args env fs completion = RunOutcome.exited ⟨[], 0, false⟩ := by
  obtain ⟨goal, filename, target⟩ := args
  simp only at hf
  subst hf
  cases goal with
  | none => exact Or.inl rfl
  | some g =>
    by_cases hg : g = "translate" ∧ target = none
    · exact Or.inl (by simp [runMain, hg])
    · exact Or.inr (by simp [runMain, hg, read_source_file, hnf])

/-- C9 witness: the theorem applied at a concrete invocation whose file
is missing. -/
theorem c9_missing_file_no_completion_witness :
    runMain ⟨some "summarize", some "gone.py", none⟩ (some "k")
        (fun _ => ReadResult.notFound) (fun _ => "r")
      = RunOutcome.exited ⟨usage_lines, 1, false⟩
    ∨ runMain ⟨some "summarize", some "gone.py", none⟩ (some "k")
        (fun _ => ReadResult.notFound) (fun _ => "r")
      = RunOutcome.exited ⟨[], 0, false⟩ :=
  c9_missing_file_no_completion ⟨some "summarize", some "gone.py", none⟩
    (some "k") (fun _ => ReadResult.notFound) (fun _ => "r") "gone.py" rfl rfl

/-- C10: the read returns `none` exactly for the file-not-found outcome;
any other failure while opening or reading is not caught and propagates
as an unhandled exception. -/
theorem c10_read_other_errors_propagate (fs : String → ReadResult) (path : String) :
    (read_source_file fs path = ReadOutcome.returned none
        ↔ fs path = ReadResult.notFound)
    ∧ (fs path = ReadResult.otherError → read_source_file fs path = ReadOutcome.raised) := by
  cases h : fs path <;> simp [read_source_file, h]

/-- C10 witness: the theorem applied at a filesystem raising a
non-FileNotFoundError failure for the path. -/
theorem c10_read_other_errors_propagate_witness :
    read_source_file (fun _ => ReadResult.otherError) "somedir"
      = ReadOutcome.raised :=
  (c10_read_other_errors_propagate (fun _ => ReadResult.otherError) "somedir").2 rfl

end Codeaid
